import Mathlib

/-!
Shallow embedding of the BParticles particle-storage core
(`ParticlesContainer` / `ParticlesBlock` from the particles header),
with the container-side bodies that live outside the provided sources
(constructor, `new_block`, `release_block`, `SmallSetVector::index`)
modelled from the specification.

Particle attribute values are kept abstract through a type parameter
`α` (the C++ code stores raw `float` / 3-float `Vec3` cells and never
computes with them in this layer, so storage behaviour is independent
of the value type).  Unsigned machine integers (`uint`) are modelled as
`Nat`; no operation of this layer can overflow them under the
caller-enforced `active_amount ≤ block_size` contract.
-/

namespace BParticles

/-- The error taxonomy of the particle-storage core. -/
inductive PError where
  | ConfigError
  | UnknownAttribute
  | InvalidHandle
  | OutOfMemory
deriving DecidableEq, Repr

/-- A 3-component vector cell, as stored by vec3 attribute buffers. -/
structure Vec3 (α : Type) where
  x : α
  y : α
  z : α
deriving DecidableEq, Repr

/--
A fixed-capacity slab of parallel attribute arrays.  Mirrors
`ParticlesBlock`: one buffer per registered float attribute, one per
registered vec3 attribute, and the count of active particles.  The C++
back-reference `m_container` is rendered by passing the owning
container explicitly to the accessors that consult it (`size`,
`is_full`, `float_buffer`, `vec3_buffer`); note the block itself holds
no capacity field.
-/
structure ParticlesBlock (α : Type) where
  float_buffers : List (List α)
  vec3_buffers : List (List (Vec3 α))
  active_amount : Nat
deriving DecidableEq, Repr

/--
Mirrors `ParticlesContainer`: the fixed block size, the two ordered
attribute-name registries (`SmallSetVector<std::string>`), and the
live-block set.  Block identity (the C++ `ParticlesBlock *` pointers)
is rendered by `Nat` handles; `next_handle` generates fresh handles the
way a fresh allocation yields a pointer distinct from every live one.
-/
structure ParticlesContainer (α : Type) where
  block_size : Nat
  float_attribute_names : List String
  vec3_attribute_names : List String
  blocks : List (Nat × ParticlesBlock α)
  next_handle : Nat
deriving Repr

/--
Modelled from the spec: `SmallSetVector::index` (the lookup used by
`float_buffer_index` / `vec3_buffer_index`; `BLI_small_set_vector.hpp`
is not among the provided sources).  Resolves a name to its
insertion-order position; "fails with `UnknownAttribute` if name not
registered ... always surfaced, never silently defaulted".
-/
def findNameIndex (name : String) : List String → Except PError Nat
  | [] => .error .UnknownAttribute
  | n :: rest =>
    if n = name then .ok 0
    else
      match findNameIndex name rest with
      | .ok i => .ok (i + 1)
      | .error e => .error e

/-- Mirrors `ParticlesContainer::block_size`. -/
def ParticlesContainer.blockSize (c : ParticlesContainer α) : Nat :=
  c.block_size

/-- Mirrors `ParticlesContainer::float_attribute_amount`. -/
def ParticlesContainer.float_attribute_amount (c : ParticlesContainer α) : Nat :=
  c.float_attribute_names.length

/-- Mirrors `ParticlesContainer::vec3_attribute_amount`. -/
def ParticlesContainer.vec3_attribute_amount (c : ParticlesContainer α) : Nat :=
  c.vec3_attribute_names.length

/-- Mirrors `ParticlesContainer::float_buffer_index`: delegates to the name
registry's `index` lookup. -/
def ParticlesContainer.float_buffer_index (c : ParticlesContainer α)
    (name : String) : Except PError Nat :=
  findNameIndex name c.float_attribute_names

/-- Mirrors `ParticlesContainer::vec3_buffer_index`. -/
def ParticlesContainer.vec3_buffer_index (c : ParticlesContainer α)
    (name : String) : Except PError Nat :=
  findNameIndex name c.vec3_attribute_names

/-- Mirrors `ParticlesContainer::active_blocks`: a read-only view of the
live-block set. -/
def ParticlesContainer.active_blocks (c : ParticlesContainer α) :
    List (Nat × ParticlesBlock α) :=
  c.blocks

/-- The handles of the live blocks (the pointer values held in
`m_blocks`). -/
def ParticlesContainer.live_handles (c : ParticlesContainer α) : List Nat :=
  c.blocks.map Prod.fst

/--
Modelled from the spec: the `ParticlesContainer` constructor body is
not among the provided sources.  "builds the schema; fails with
`ConfigError` if blockSize is 0 or if either name list contains
duplicates."
-/
def ParticlesContainer.construct (α : Type) (block_size : Nat)
    (float_names vec3_names : List String) :
    Except PError (ParticlesContainer α) :=
  if block_size = 0 then .error .ConfigError
  else if ¬ float_names.Nodup then .error .ConfigError
  else if ¬ vec3_names.Nodup then .error .ConfigError
  else .ok
    { block_size := block_size
      float_attribute_names := float_names
      vec3_attribute_names := vec3_names
      blocks := []
      next_handle := 0 }

/--
Modelled from the spec: `ParticlesContainer::new_block` body is not
among the provided sources.  "allocates a fresh block with `blockSize`
capacity, zero-initializes `activeCount` to 0, allocates one buffer per
registered attribute (float buffers length `blockSize`, vec3 buffers
length `blockSize`), registers the block in the live-block set, and
returns ownership-by-reference to the caller."  The freshly allocated
buffers hold unspecified contents in C++; the model fills them with the
given fill values `d` / `dv`.
-/
def ParticlesContainer.new_block (c : ParticlesContainer α) (d : α)
    (dv : Vec3 α) : ParticlesContainer α × Nat :=
  let b : ParticlesBlock α :=
    { float_buffers :=
        List.replicate c.float_attribute_names.length
          (List.replicate c.block_size d)
      vec3_buffers :=
        List.replicate c.vec3_attribute_names.length
          (List.replicate c.block_size dv)
      active_amount := 0 }
  ({ c with
      blocks := (c.next_handle, b) :: c.blocks
      next_handle := c.next_handle + 1 },
    c.next_handle)

/--
Modelled from the spec: `ParticlesContainer::release_block` body is not
among the provided sources.  "removes the block from the live-block set
and frees its buffers. Fails with `InvalidHandle` if the block is not
currently owned by this container (double-release or foreign block)";
"must not corrupt the live-block set".
-/
def ParticlesContainer.release_block (c : ParticlesContainer α)
    (h : Nat) : Except PError (ParticlesContainer α) :=
  if h ∈ c.live_handles then
    .ok { c with blocks := c.blocks.filter (fun p => p.fst != h) }
  else .error .InvalidHandle

/-- The state after a `release_block` call: on failure the container is
left as it was (the C++ call returns without touching `m_blocks`). -/
def ParticlesContainer.release_block_run (c : ParticlesContainer α)
    (h : Nat) : ParticlesContainer α :=
  match c.release_block h with
  | .ok c2 => c2
  | .error _ => c

/- Particles Block ****************************************  -/

/-- Mirrors `ParticlesBlock::size`: "return m_container.block_size();" — the
block consults its owning container and stores no capacity of its
own. -/
def ParticlesBlock.size (_b : ParticlesBlock α) (c : ParticlesContainer α) :
    Nat :=
  c.block_size

/-- Mirrors `ParticlesBlock::is_full`: "return m_active_amount == this->size();". -/
def ParticlesBlock.is_full (b : ParticlesBlock α)
    (c : ParticlesContainer α) : Bool :=
  b.active_amount == b.size c

/-- Mirrors `ParticlesBlock::next_inactive_index`: "return m_active_amount;". -/
def ParticlesBlock.next_inactive_index (b : ParticlesBlock α) : Nat :=
  b.active_amount

/-- Mirrors `ParticlesBlock::clear`: "m_active_amount = 0;" — nothing else is
touched. -/
def ParticlesBlock.clear (b : ParticlesBlock α) : ParticlesBlock α :=
  { b with active_amount := 0 }

/-- Writing through the mutable reference returned by
`ParticlesBlock::active_amount` (`uint &`): the caller sets the active
count in place. -/
def ParticlesBlock.set_active_amount (b : ParticlesBlock α) (n : Nat) :
    ParticlesBlock α :=
  { b with active_amount := n }

/-- Mirrors `ParticlesBlock::float_buffer`: resolves the name through the
owning container's schema, then returns the buffer at that index. -/
def ParticlesBlock.float_buffer (b : ParticlesBlock α)
    (c : ParticlesContainer α) (name : String) : Except PError (List α) :=
  match c.float_buffer_index name with
  | .ok index => .ok (b.float_buffers.getD index [])
  | .error e => .error e

/-- Mirrors `ParticlesBlock::vec3_buffer`. -/
def ParticlesBlock.vec3_buffer (b : ParticlesBlock α)
    (c : ParticlesContainer α) (name : String) :
    Except PError (List (Vec3 α)) :=
  match c.vec3_buffer_index name with
  | .ok index => .ok (b.vec3_buffers.getD index [])
  | .error e => .error e

/-- A store through the raw pointer returned by `float_buffer`:
`float_buffer(name)[i] = v`. -/
def ParticlesBlock.write_float (b : ParticlesBlock α)
    (c : ParticlesContainer α) (name : String) (i : Nat) (v : α) :
    Except PError (ParticlesBlock α) :=
  match c.float_buffer_index name with
  | .ok index =>
    let buf := (b.float_buffers.getD index []).set i v
    .ok { b with float_buffers := b.float_buffers.set index buf }
  | .error e => .error e

/-- A load through the raw pointer returned by `float_buffer`:
`float_buffer(name)[i]`. -/
def ParticlesBlock.read_float (b : ParticlesBlock α)
    (c : ParticlesContainer α) (name : String) (i : Nat) :
    Except PError (Option α) :=
  match c.float_buffer_index name with
  | .ok index => .ok ((b.float_buffers.getD index [])[i]?)
  | .error e => .error e

/-- In-place `clear()` of one owned block, viewed from the container:
the block the handle designates is cleared, the live-block set itself
(its handles, hence its membership) is untouched. -/
def ParticlesContainer.clear_block (c : ParticlesContainer α) (h : Nat) :
    ParticlesContainer α :=
  { c with blocks :=
      c.blocks.map (fun p => if p.fst = h then (p.fst, p.snd.clear) else p) }

/-- The structural invariant of a block owned by a container: one
buffer per registered attribute, each of length `block_size` (spec
section 3, container invariant). -/
def BlockWF (c : ParticlesContainer α) (b : ParticlesBlock α) : Prop :=
  b.float_buffers.length = c.float_attribute_amount ∧
  b.vec3_buffers.length = c.vec3_attribute_amount ∧
  (∀ buf ∈ b.float_buffers, buf.length = c.block_size) ∧
  (∀ buf ∈ b.vec3_buffers, buf.length = c.block_size)

/-- Handle freshness invariant: every live handle was generated before
`next_handle` (fresh allocations never collide with live blocks). -/
def ContainerWF (c : ParticlesContainer α) : Prop :=
  ∀ h ∈ c.live_handles, h < c.next_handle

/- Lemmas about the name-registry lookup  -/

theorem findNameIndex_error_of_not_mem {name : String} {l : List String}
    (h : name ∉ l) : findNameIndex name l = .error .UnknownAttribute := by
  induction l with
  | nil => rfl
  | cons n rest ih =>
    have hne : n ≠ name := fun he => h (he ▸ List.mem_cons_self n rest)
    have hrest : name ∉ rest := fun hm => h (List.mem_cons_of_mem _ hm)
    simp [findNameIndex, hne, ih hrest]

theorem findNameIndex_ok_of_mem {name : String} {l : List String}
    (h : name ∈ l) : ∃ i, findNameIndex name l = .ok i := by
  induction l with
  | nil => cases h
  | cons n rest ih =>
    by_cases he : n = name
    · exact ⟨0, by simp [findNameIndex, he]⟩
    · have hm : name ∈ rest := by
        rcases List.mem_cons.mp h with h1 | h1
        · exact absurd h1.symm he
        · exact h1
      obtain ⟨i, hi⟩ := ih hm
      exact ⟨i + 1, by simp [findNameIndex, he, hi]⟩

theorem findNameIndex_get {name : String} {l : List String} {i : Nat}
    (h : findNameIndex name l = .ok i) : l[i]? = some name := by
  induction l generalizing i with
  | nil => simp [findNameIndex] at h
  | cons n rest ih =>
    by_cases he : n = name
    · simp only [findNameIndex, if_pos he] at h
      cases h
      simp [he]
    · simp only [findNameIndex, if_neg he] at h
      cases hr : findNameIndex name rest with
      | ok j =>
        rw [hr] at h
        cases h
        simpa using ih hr
      | error e => rw [hr] at h; cases h

theorem findNameIndex_lt_length {name : String} {l : List String} {i : Nat}
    (h : findNameIndex name l = .ok i) : i < l.length := by
  have := findNameIndex_get h
  exact List.getElem?_eq_some.mp this |>.1

theorem findNameIndex_inj {name1 name2 : String} {l : List String} {i : Nat}
    (h1 : findNameIndex name1 l = .ok i)
    (h2 : findNameIndex name2 l = .ok i) : name1 = name2 := by
  have g1 := findNameIndex_get h1
  have g2 := findNameIndex_get h2
  rw [g1] at g2
  exact Option.some.inj g2

theorem findNameIndex_nodup {l : List String} (hnd : l.Nodup) (i : Nat)
    (hi : i < l.length) : findNameIndex (l.get ⟨i, hi⟩) l = .ok i := by
  induction l generalizing i with
  | nil => cases hi
  | cons n rest ih =>
    cases i with
    | zero => simp [findNameIndex]
    | succ j =>
      have hj : j < rest.length := Nat.lt_of_succ_lt_succ hi
      have hget : (n :: rest).get ⟨j + 1, hi⟩ = rest.get ⟨j, hj⟩ := rfl
      have hmem : rest.get ⟨j, hj⟩ ∈ rest := List.get_mem rest j hj
      have hne : n ≠ rest.get ⟨j, hj⟩ := by
        intro he
        exact (List.nodup_cons.mp hnd).1 (he ▸ hmem)
      rw [hget, findNameIndex, if_neg hne,
        ih (List.nodup_cons.mp hnd).2 j hj]

/- Small helpers about `List.set` / `List.getD`  -/

theorem getD_set_self {β : Type} (l : List β) (n : Nat) (a d : β)
    (h : n < l.length) : (l.set n a).getD n d = a := by
  rw [List.getD_eq_getElem _ _ (by simpa using h)]
  exact List.getElem_set_self (by simpa using h)

theorem getD_set_ne {β : Type} (l : List β) (m n : Nat) (a d : β)
    (h : m ≠ n) : (l.set m a).getD n d = l.getD n d := by
  simp [List.getD, List.getElem?_set_ne h]

/- Concrete instances used by witnesses  -/

/-- A concrete container: `blockSize = 4`, float attributes
`["mass", "age"]`, vec3 attributes `["position"]`. -/
def contEx : ParticlesContainer Int :=
  { block_size := 4
    float_attribute_names := ["mass", "age"]
    vec3_attribute_names := ["position"]
    blocks := []
    next_handle := 0 }

/-- A concrete block shaped for `contEx`. -/
def blkEx : ParticlesBlock Int :=
  { float_buffers := [[0, 0, 0, 0], [0, 0, 0, 0]]
    vec3_buffers := [[⟨0, 0, 0⟩, ⟨0, 0, 0⟩, ⟨0, 0, 0⟩, ⟨0, 0, 0⟩]]
    active_amount := 0 }

/- Claim theorems  -/

/-- C7: `is_full` returns `true` iff the block's `active_amount`
equals the owning container's `block_size`; after setting
`active_amount` to `block_size` it returns `true`, and for any
`active_amount` strictly below `block_size` it returns `false`. -/
theorem claim_C7 (c : ParticlesContainer α) (b : ParticlesBlock α) :
    (b.is_full c = true ↔ b.active_amount = c.block_size) ∧
    (b.set_active_amount c.block_size).is_full c = true ∧
    (∀ n, n < c.block_size → (b.set_active_amount n).is_full c = false) := by
  refine ⟨?_, ?_, ?_⟩ <;>
    simp [ParticlesBlock.is_full, ParticlesBlock.size,
      ParticlesBlock.set_active_amount]
  intro n h
  omega

/-- Witness for C7 at `contEx` / `blkEx` with `active_amount = 1 < 4`. -/
theorem claim_C7_witness :
    (blkEx.set_active_amount 1).is_full contEx = false :=
  (claim_C7 contEx blkEx).2.2 1 (by decide)

/-- C9: `next_inactive_index` returns the current `active_amount`, and
after the caller bumps `active_amount` by one (through the mutable
reference), a subsequent call returns the prior value plus one.  The
call itself is a pure read: in this embedding it takes the block and
returns a number without producing a new block state. -/
theorem claim_C9 (b : ParticlesBlock α) :
    b.next_inactive_index = b.active_amount ∧
    (b.set_active_amount (b.active_amount + 1)).next_inactive_index
      = b.active_amount + 1 :=
  ⟨rfl, rfl⟩

/-- C10: a block stores no capacity of its own — `size` returns the
owning container's `block_size` for every block (so all blocks of one
container report the same capacity), `is_full` compares
`active_amount` against that container value, and on a full block
`next_inactive_index` returns `block_size`, which is not a valid slot
index (`¬ block_size < block_size`). -/
theorem claim_C10 (c : ParticlesContainer α) (b b2 : ParticlesBlock α) :
    b.size c = c.block_size ∧
    b.size c = b2.size c ∧
    (b.is_full c = true ↔ b.active_amount = c.block_size) ∧
    (b.is_full c = true →
      b.next_inactive_index = c.block_size ∧
      ¬ b.next_inactive_index < c.block_size) := by
  refine ⟨rfl, rfl, ?_, ?_⟩
  · simp [ParticlesBlock.is_full, ParticlesBlock.size]
  · intro hf
    have : b.active_amount = c.block_size := by
      simpa [ParticlesBlock.is_full, ParticlesBlock.size] using hf
    exact ⟨this, by simp [ParticlesBlock.next_inactive_index, this]⟩

/-- Witness for C10: a full block (`active_amount = 4`) of `contEx`. -/
theorem claim_C10_witness :
    (blkEx.set_active_amount 4).next_inactive_index = contEx.block_size ∧
    ¬ (blkEx.set_active_amount 4).next_inactive_index < contEx.block_size :=
  (claim_C10 contEx (blkEx.set_active_amount 4) blkEx).2.2.2 (by decide)

/-- C8: `clear` resets `active_amount` to 0 and changes nothing else —
every float and vec3 buffer, the block's capacity, and (viewed from
the owning container, which keeps the same block pointers) the
live-block set's handles are unchanged. -/
theorem claim_C8 (c : ParticlesContainer α) (b : ParticlesBlock α)
    (h : Nat) :
    b.clear.active_amount = 0 ∧
    b.clear.float_buffers = b.float_buffers ∧
    b.clear.vec3_buffers = b.vec3_buffers ∧
    b.clear.size c = b.size c ∧
    (c.clear_block h).live_handles = c.live_handles := by
  refine ⟨rfl, rfl, rfl, rfl, ?_⟩
  simp only [ParticlesContainer.clear_block, ParticlesContainer.live_handles,
    List.map_map]
  congr 1
  funext p
  by_cases hp : p.fst = h <;> simp [hp]

/-- C1: `release_block` on a handle not currently owned by the
container (already released, or created elsewhere) fails with
`InvalidHandle`, and the container's live-block set is exactly the
same after the call as before it.  The last conjunct shows why a
second release of the same handle always lands in this case: a
successful release removes the handle from the live set. -/
theorem claim_C1 (c : ParticlesContainer α) (h : Nat)
    (hh : h ∉ c.live_handles) :
    c.release_block h = .error .InvalidHandle ∧
    (c.release_block_run h).blocks = c.blocks ∧
    (c.release_block_run h).live_handles = c.live_handles ∧
    (∀ g c2, c.release_block g = .ok c2 → g ∉ c2.live_handles) := by
  have herr : c.release_block h = .error .InvalidHandle := by
    simp [ParticlesContainer.release_block, hh]
  refine ⟨herr, ?_, ?_, ?_⟩
  · simp [ParticlesContainer.release_block_run, herr]
  · simp [ParticlesContainer.release_block_run, herr]
  · intro g c2 hok
    by_cases hg : g ∈ c.live_handles
    · simp only [ParticlesContainer.release_block, if_pos hg] at hok
      cases hok
      intro hmem
      simp only [ParticlesContainer.live_handles, List.mem_map,
        List.mem_filter] at hmem
      obtain ⟨p, ⟨_, hpne⟩, hpe⟩ := hmem
      exact absurd hpe (by simpa using hpne)
    · simp [ParticlesContainer.release_block, hg] at hok

/-- Witness for C1: releasing handle 0 from `contEx` (whose live-block
set is empty) fails with `InvalidHandle` and leaves the set empty. -/
theorem claim_C1_witness :
    contEx.release_block 0 = .error .InvalidHandle ∧
    (contEx.release_block_run 0).blocks = contEx.blocks :=
  ⟨(claim_C1 contEx 0 (by simp [contEx, ParticlesContainer.live_handles])).1,
   (claim_C1 contEx 0 (by simp [contEx, ParticlesContainer.live_handles])).2.1⟩

/-- C2: construction fails with `ConfigError` exactly when `blockSize`
is 0 or either attribute-name list contains a duplicate; for all other
inputs it succeeds, and the resulting schema maps each name to its
position in the given insertion order. -/
theorem claim_C2 (α : Type) (bs : Nat) (fns vns : List String) :
    (ParticlesContainer.construct α bs fns vns = .error .ConfigError ↔
      bs = 0 ∨ ¬ fns.Nodup ∨ ¬ vns.Nodup) ∧
    (bs ≠ 0 → fns.Nodup → vns.Nodup →
      ∃ c, ParticlesContainer.construct α bs fns vns = .ok c ∧
        c.block_size = bs ∧
        c.float_attribute_names = fns ∧
        c.vec3_attribute_names = vns ∧
        (∀ i (h : i < fns.length),
          c.float_buffer_index (fns.get ⟨i, h⟩) = .ok i) ∧
        (∀ i (h : i < vns.length),
          c.vec3_buffer_index (vns.get ⟨i, h⟩) = .ok i)) := by
  refine ⟨⟨fun herr => ?_, fun hbad => ?_⟩, fun h0 hf hv => ?_⟩
  · by_contra hc
    push_neg at hc
    simp [ParticlesContainer.construct, hc.1, hc.2.1, hc.2.2] at herr
  · by_cases h0 : bs = 0
    · simp [ParticlesContainer.construct, h0]
    · by_cases hf : fns.Nodup
      · by_cases hv : vns.Nodup
        · exact absurd hbad (by simp [h0, hf, hv])
        · simp [ParticlesContainer.construct, h0, hf, hv]
      · simp [ParticlesContainer.construct, h0, hf]
  · have hok : ParticlesContainer.construct α bs fns vns
        = .ok ⟨bs, fns, vns, [], 0⟩ := by
      simp [ParticlesContainer.construct, h0, hf, hv]
    exact ⟨_, hok, rfl, rfl, rfl,
      fun i h => findNameIndex_nodup hf i h,
      fun i h => findNameIndex_nodup hv i h⟩

/-- Witness for C2: `blockSize = 4`, float names `["mass", "age"]`,
vec3 names `["position"]` construct successfully with insertion-order
indices. -/
theorem claim_C2_witness :
    ∃ c, ParticlesContainer.construct Int 4 ["mass", "age"] ["position"]
        = .ok c ∧
      c.block_size = 4 ∧
      c.float_attribute_names = ["mass", "age"] ∧
      c.vec3_attribute_names = ["position"] ∧
      (∀ i (h : i < (["mass", "age"] : List String).length),
        c.float_buffer_index
          ((["mass", "age"] : List String).get ⟨i, h⟩) = .ok i) ∧
      (∀ i (h : i < (["position"] : List String).length),
        c.vec3_buffer_index
          ((["position"] : List String).get ⟨i, h⟩) = .ok i) :=
  (claim_C2 Int 4 ["mass", "age"] ["position"]).2
    (by decide) (by decide) (by decide)

/-- C4: for a container whose float schema is `["mass", "age"]`,
`float_buffer_index "mass"` is 0 and `float_buffer_index "age"` is 1;
in general every registered name resolves to its position in the
construction-time insertion order, and — the lookup being a pure
function of the immutable schema — repeated calls necessarily return
this same index. -/
theorem claim_C4 (c : ParticlesContainer α)
    (hf : c.float_attribute_names.Nodup)
    (hv : c.vec3_attribute_names.Nodup) :
    (c.float_attribute_names = ["mass", "age"] →
      c.float_buffer_index "mass" = .ok 0 ∧
      c.float_buffer_index "age" = .ok 1) ∧
    (∀ i (h : i < c.float_attribute_names.length),
      c.float_buffer_index (c.float_attribute_names.get ⟨i, h⟩) = .ok i) ∧
    (∀ i (h : i < c.vec3_attribute_names.length),
      c.vec3_buffer_index (c.vec3_attribute_names.get ⟨i, h⟩) = .ok i) := by
  refine ⟨fun hm => ⟨?_, ?_⟩,
    fun i h => findNameIndex_nodup hf i h,
    fun i h => findNameIndex_nodup hv i h⟩
  · show findNameIndex "mass" c.float_attribute_names = .ok 0
    rw [hm]
    rfl
  · show findNameIndex "age" c.float_attribute_names = .ok 1
    rw [hm]
    rfl

/-- Witness for C4 at `contEx`, whose float schema is
`["mass", "age"]`. -/
theorem claim_C4_witness :
    contEx.float_buffer_index "mass" = .ok 0 ∧
    contEx.float_buffer_index "age" = .ok 1 :=
  (claim_C4 contEx (by decide) (by decide)).1 rfl

/-- C3: looking up a name that is not registered in the respective
schema fails with `UnknownAttribute` — never an index, never a silent
default — and a block's `float_buffer` / `vec3_buffer` propagate that
same failure. -/
theorem claim_C3 (c : ParticlesContainer α) (b : ParticlesBlock α)
    (name : String) :
    (name ∉ c.float_attribute_names →
      c.float_buffer_index name = .error .UnknownAttribute ∧
      (∀ i, c.float_buffer_index name ≠ .ok i) ∧
      b.float_buffer c name = .error .UnknownAttribute) ∧
    (name ∉ c.vec3_attribute_names →
      c.vec3_buffer_index name = .error .UnknownAttribute ∧
      (∀ i, c.vec3_buffer_index name ≠ .ok i) ∧
      b.vec3_buffer c name = .error .UnknownAttribute) := by
  constructor
  · intro hmem
    have he : c.float_buffer_index name = .error .UnknownAttribute :=
      findNameIndex_error_of_not_mem hmem
    exact ⟨he, by simp [he], by simp [ParticlesBlock.float_buffer, he]⟩
  · intro hmem
    have he : c.vec3_buffer_index name = .error .UnknownAttribute :=
      findNameIndex_error_of_not_mem hmem
    exact ⟨he, by simp [he], by simp [ParticlesBlock.vec3_buffer, he]⟩

/-- Witness for C3 at `contEx` / `blkEx` with the unregistered name
`"unknown"`. -/
theorem claim_C3_witness :
    contEx.float_buffer_index "unknown" = .error .UnknownAttribute ∧
    blkEx.float_buffer contEx "unknown" = .error .UnknownAttribute :=
  ⟨((claim_C3 contEx blkEx "unknown").1 (by decide)).1,
   ((claim_C3 contEx blkEx "unknown").1 (by decide)).2.2⟩

/-- C5: `new_block` on a container with positive `block_size` yields a
block with `active_amount = 0` and `is_full = false`, carrying one
buffer of length `block_size` per registered float and vec3 attribute;
the block is registered in the live-block set, whose handle list grows
by exactly the fresh handle (fresh: not previously live, given the
handle-freshness invariant). -/
theorem claim_C5 (c : ParticlesContainer α) (d : α) (dv : Vec3 α)
    (hw : ContainerWF c) (hbs : 0 < c.block_size) :
    ∃ b : ParticlesBlock α,
      (c.new_block d dv).1.blocks = ((c.new_block d dv).2, b) :: c.blocks ∧
      b.active_amount = 0 ∧
      b.is_full (c.new_block d dv).1 = false ∧
      b.float_buffers.length = c.float_attribute_amount ∧
      b.vec3_buffers.length = c.vec3_attribute_amount ∧
      (∀ buf ∈ b.float_buffers, buf.length = c.block_size) ∧
      (∀ buf ∈ b.vec3_buffers, buf.length = c.block_size) ∧
      (c.new_block d dv).2 ∉ c.live_handles ∧
      (c.new_block d dv).1.live_handles
        = (c.new_block d dv).2 :: c.live_handles := by
  refine ⟨_, rfl, rfl, ?_, ?_, ?_, ?_, ?_, ?_, ?_⟩
  · simp only [ParticlesBlock.is_full, ParticlesBlock.size,
      ParticlesContainer.new_block]
    simp only [beq_eq_false_iff_ne, ne_eq]
    omega
  · simp [ParticlesContainer.new_block,
      ParticlesContainer.float_attribute_amount]
  · simp [ParticlesContainer.new_block,
      ParticlesContainer.vec3_attribute_amount]
  · intro buf hbuf
    rw [List.eq_of_mem_replicate hbuf]
    exact List.length_replicate _ _
  · intro buf hbuf
    rw [List.eq_of_mem_replicate hbuf]
    exact List.length_replicate _ _
  · intro hmem
    exact absurd (hw _ hmem) (by simp [ParticlesContainer.new_block])
  · rfl

/-- Witness for C5: a fresh block of `contEx` (empty live set,
`block_size = 4`). -/
theorem claim_C5_witness :
    ∃ b : ParticlesBlock Int,
      (contEx.new_block 0 ⟨0, 0, 0⟩).1.blocks
        = ((contEx.new_block 0 ⟨0, 0, 0⟩).2, b) :: contEx.blocks ∧
      b.active_amount = 0 ∧
      b.is_full (contEx.new_block 0 ⟨0, 0, 0⟩).1 = false ∧
      b.float_buffers.length = contEx.float_attribute_amount ∧
      b.vec3_buffers.length = contEx.vec3_attribute_amount ∧
      (∀ buf ∈ b.float_buffers, buf.length = contEx.block_size) ∧
      (∀ buf ∈ b.vec3_buffers, buf.length = contEx.block_size) ∧
      (contEx.new_block 0 ⟨0, 0, 0⟩).2 ∉ contEx.live_handles ∧
      (contEx.new_block 0 ⟨0, 0, 0⟩).1.live_handles
        = (contEx.new_block 0 ⟨0, 0, 0⟩).2 :: contEx.live_handles :=
  claim_C5 contEx 0 ⟨0, 0, 0⟩
    (fun h hm => absurd hm (by simp [contEx, ParticlesContainer.live_handles]))
    (by decide)

/- Reduction lemmas for the buffer accessors on a resolved name  -/

theorem write_float_ok {c : ParticlesContainer α} {b : ParticlesBlock α}
    {name : String} {index : Nat}
    (h : c.float_buffer_index name = .ok index) (i : Nat) (v : α) :
    b.write_float c name i v
      = .ok { b with float_buffers := b.float_buffers.set index ((b.float_buffers.getD index []).set i v) } := by
  unfold ParticlesBlock.write_float
  rw [h]

theorem read_float_ok {c : ParticlesContainer α} {b : ParticlesBlock α}
    {name : String} {index : Nat}
    (h : c.float_buffer_index name = .ok index) (i : Nat) :
    b.read_float c name i = .ok ((b.float_buffers.getD index [])[i]?) := by
  unfold ParticlesBlock.read_float
  rw [h]

theorem float_buffer_ok {c : ParticlesContainer α} {b : ParticlesBlock α}
    {name : String} {index : Nat}
    (h : c.float_buffer_index name = .ok index) :
    b.float_buffer c name = .ok (b.float_buffers.getD index []) := by
  unfold ParticlesBlock.float_buffer
  rw [h]

/-- C6: storing `v` at slot `i` of a registered float attribute's
buffer and immediately loading slot `i` returns `v`; the store leaves
every other slot of that buffer, every other registered float
attribute's buffer, every vec3 buffer, and the active count
unchanged. -/
theorem claim_C6 (c : ParticlesContainer α) (b : ParticlesBlock α)
    (name : String) (i : Nat) (v : α) (index : Nat)
    (hwf : BlockWF c b)
    (hname : c.float_buffer_index name = .ok index)
    (hi : i < c.block_size) :
    ∃ b2, b.write_float c name i v = .ok b2 ∧
      b2.read_float c name i = .ok (some v) ∧
      (∀ j, j ≠ i → b2.read_float c name j = b.read_float c name j) ∧
      (∀ name2, name2 ∈ c.float_attribute_names → name2 ≠ name →
        b2.float_buffer c name2 = b.float_buffer c name2) ∧
      (∀ name2, b2.vec3_buffer c name2 = b.vec3_buffer c name2) ∧
      b2.active_amount = b.active_amount := by
  have hlen : index < c.float_attribute_names.length :=
    findNameIndex_lt_length hname
  have hidx : index < b.float_buffers.length := by
    rw [hwf.1]
    exact hlen
  have hmem0 : b.float_buffers.getD index [] ∈ b.float_buffers := by
    rw [List.getD_eq_getElem _ _ hidx]
    exact List.getElem_mem _
  have hb0len : (b.float_buffers.getD index []).length = c.block_size :=
    hwf.2.2.1 _ hmem0
  refine ⟨_, write_float_ok hname i v, ?_, ?_, ?_, ?_, rfl⟩
  · rw [read_float_ok hname i]
    rw [getD_set_self _ _ _ _ hidx]
    rw [List.getElem?_set_eq_of_lt v (hb0len ▸ hi)]
  · intro j hj
    rw [read_float_ok hname j, read_float_ok hname j]
    rw [getD_set_self _ _ _ _ hidx]
    rw [List.getElem?_set_ne (fun he => hj he.symm)]
  · intro name2 hm2 hne2
    obtain ⟨i2, h2⟩ : ∃ i2, c.float_buffer_index name2 = .ok i2 :=
      findNameIndex_ok_of_mem hm2
    have hne : index ≠ i2 := by
      intro he
      exact hne2 (findNameIndex_inj h2 (he ▸ hname))
    rw [float_buffer_ok h2, float_buffer_ok h2]
    rw [getD_set_ne _ _ _ _ _ hne]
  · intro name2
    cases hv2 : c.vec3_buffer_index name2 with
    | ok k => simp [ParticlesBlock.vec3_buffer, hv2]
    | error e => simp [ParticlesBlock.vec3_buffer, hv2]

/-- Witness for C6: writing `7` at slot 2 of the `"mass"` buffer of
`blkEx` in `contEx`. -/
theorem claim_C6_witness :
    ∃ b2, blkEx.write_float contEx "mass" 2 7 = .ok b2 ∧
      b2.read_float contEx "mass" 2 = .ok (some 7) ∧
      (∀ j, j ≠ 2 →
        b2.read_float contEx "mass" j = blkEx.read_float contEx "mass" j) ∧
      (∀ name2, name2 ∈ contEx.float_attribute_names → name2 ≠ "mass" →
        b2.float_buffer contEx name2 = blkEx.float_buffer contEx name2) ∧
      (∀ name2, b2.vec3_buffer contEx name2 = blkEx.vec3_buffer contEx name2) ∧
      b2.active_amount = blkEx.active_amount :=
  claim_C6 contEx blkEx "mass" 2 7 0
    ⟨rfl, rfl, by decide, by decide⟩ rfl (by decide)

end BParticles
